import Mathlib

/-!
# Verification of the MRP Critical Items Analyzer

Shallow embedding of `mrp_analyzer.py` (function `analyze_mrp` and its
validation helpers).  Quantities are modelled as rationals `ℚ`; a numeric
cell of the spreadsheet is `Option ℚ`, where `none` models a blank cell or
any value that `pd.to_numeric(..., errors='coerce')` turns into NaN.
Rounding follows numpy's `round`, which rounds half to even.
-/

namespace MRP

/-- One raw input row of the spreadsheet.  The five quantity columns
(ESTQ10, ESTQ20, DEMANDAMRP, ESTOQSEG, PEDIDOS) are `Option ℚ` (`none` =
blank/NaN).  `status` is the cell of an optional STATUS column when the
sheet carries one (`none` = no such column / empty). -/
structure Row where
  cod : String
  descricaoPromob : String
  estq10 : Option ℚ
  estq20 : Option ℚ
  demandamrp : Option ℚ
  estoqseg : Option ℚ
  fornecedorPrincipal : String
  pedidos : Option ℚ
  obs : String
  status : Option String
  deriving DecidableEq

/-- Reads a numeric cell.  `validateNumericColumns` rejects any table with a
`none` cell before the computation runs, so the default is never reached on
the success path. -/
def val (x : Option ℚ) : ℚ := x.getD 0

/-- numpy `round`: round half to even (banker's rounding). -/
def roundHalfEven (q : ℚ) : ℤ :=
  if q - ⌊q⌋ < 1/2 then ⌊q⌋
  else if (1:ℚ)/2 < q - ⌊q⌋ then ⌊q⌋ + 1
  else if ⌊q⌋ % 2 = 0 then ⌊q⌋ else ⌊q⌋ + 1

/-- `df["ESTOQUE DISPONÍVEL"] = np.add(df["ESTQ10"], np.divide(df["ESTQ20"], 3))`. -/
def Row.estoqueDisponivel (r : Row) : ℚ := val r.estq10 + val r.estq20 / 3

/-- `mask = (df["ESTOQUE DISPONÍVEL"] - df["DEMANDAMRP"]) < df["ESTOQSEG"]`. -/
def Row.isCritical (r : Row) : Bool :=
  decide (r.estoqueDisponivel - val r.demandamrp < val r.estoqseg)

/-- `criticos = df[mask]`. -/
def criticos (rows : List Row) : List Row := rows.filter Row.isCritical

/-- `(DEMANDAMRP - DISPONÍVEL + ESTOQSEG - PEDIDOS).clip(lower=0).round().astype(int)`. -/
def Row.quantidadeASolicitar (r : Row) : ℤ :=
  roundHalfEven
    (max 0 (val r.demandamrp - r.estoqueDisponivel + val r.estoqseg - val r.pedidos))

/-- One output record, projected to `final_columns` (in that order). -/
structure CriticalItem where
  cod : String
  fornecedorPrincipal : String
  descricaoPromob : String
  estq10 : ℚ
  estq20 : ℚ
  demandamrp : ℚ
  estoqseg : ℚ
  pedidos : ℚ
  estoqueDisponivel : ℤ
  quantidadeASolicitar : ℤ
  obs : String
  deriving DecidableEq

/-- Builds the output record of a selected row: the derived quantity column,
`FORNECEDOR PRINCIPAL` copied from `FORNECEDORPRINCIPAL`, and
`ESTOQUE DISPONÍVEL` rounded to an integer (`.round().astype(int)`). -/
def toCritical (r : Row) : CriticalItem :=
  { cod := r.cod
    fornecedorPrincipal := r.fornecedorPrincipal
    descricaoPromob := r.descricaoPromob
    estq10 := val r.estq10
    estq20 := val r.estq20
    demandamrp := val r.demandamrp
    estoqseg := val r.estoqseg
    pedidos := val r.pedidos
    estoqueDisponivel := roundHalfEven r.estoqueDisponivel
    quantidadeASolicitar := r.quantidadeASolicitar
    obs := r.obs }

/-- The rows the analysis outputs: the selected rows, in order, projected.
The source applies no sort after the filter. -/
def analyzeRows (rows : List Row) : List CriticalItem := (criticos rows).map toCritical

/-- The errors `analyze_mrp` can report, with the data its messages embed:
`ValidationError("Colunas obrigatórias ausentes: ...")` carries the list of
missing columns, `ValidationError("Valores não numéricos ... coluna {col}.
Linhas: ...")` carries the column and the offending row indices, likewise
for negative values, and `FileNotFoundError` carries the path. -/
inductive AnalysisError where
  | missingColumns (cols : List String)
  | nonNumeric (col : String) (rowIdx : List ℕ)
  | negative (col : String) (rowIdx : List ℕ)
  | fileNotFound (path : String)
  deriving DecidableEq

/-- `numeric_cols = ["ESTQ10", "ESTQ20", "DEMANDAMRP", "ESTOQSEG", "PEDIDOS"]`,
each paired with its accessor. -/
def numericFields : List (String × (Row → Option ℚ)) :=
  [("ESTQ10", Row.estq10), ("ESTQ20", Row.estq20), ("DEMANDAMRP", Row.demandamrp),
   ("ESTOQSEG", Row.estoqseg), ("PEDIDOS", Row.pedidos)]

/-- A cell that `pd.to_numeric(..., errors='coerce')` leaves as NaN. -/
def cellIsNaN (p : Row → Option ℚ) (r : Row) : Bool := (p r).isNone

/-- A cell on which `df[col] < 0` holds (NaN compares false in pandas). -/
def cellNegative (p : Row → Option ℚ) (r : Row) : Bool :=
  match p r with
  | none => false
  | some v => decide (v < 0)

/-- `validate_numeric_columns`: raises on the first column containing a NaN,
reporting that column and the offending row indices. -/
def validateNumericColumns (rows : List Row) : Option AnalysisError :=
  (numericFields.find? (fun p => rows.any (cellIsNaN p.2))).map
    (fun p => .nonNumeric p.1 ((rows.enum.filter (fun q => cellIsNaN p.2 q.2)).map (·.1)))

/-- `validate_positive_values`: raises on the first column containing a
negative value, reporting that column and the offending row indices. -/
def validatePositiveValues (rows : List Row) : Option AnalysisError :=
  (numericFields.find? (fun p => rows.any (cellNegative p.2))).map
    (fun p => .negative p.1 ((rows.enum.filter (fun q => cellNegative p.2 q.2)).map (·.1)))

/-- Python `str.strip()`: remove whitespace from both ends of the character
sequence (modelled on the string's character list). -/
def stripChars (cs : List Char) : List Char :=
  ((cs.dropWhile Char.isWhitespace).reverse.dropWhile Char.isWhitespace).reverse

/-- `df.columns = [col.strip().upper() for col in df.columns]`: strip
surrounding whitespace, then uppercase each character (`Char.toUpper` is
ASCII-only; the canonical column names' accented letters are already
uppercase, so this matches Python `str.upper()` on the inputs considered). -/
def normalizeCol (s : String) : String := ⟨(stripChars s.data).map Char.toUpper⟩

/-- `required_cols` of `analyze_mrp`. -/
def requiredCols : List String :=
  ["CÓD", "DESCRIÇÃOPROMOB", "ESTQ10", "ESTQ20", "DEMANDAMRP",
   "ESTOQSEG", "FORNECEDORPRINCIPAL", "PEDIDOS", "OBS"]

/-- One worksheet: its raw column headers and its rows. -/
structure Sheet where
  columns : List String
  rows : List Row
  deriving DecidableEq

/-- `missing_cols = [col for col in required_cols if col not in df.columns]`,
computed on the normalized headers. -/
def missingColumnsOf (sheet : Sheet) : List String :=
  requiredCols.filter (fun c => !(sheet.columns.map normalizeCol).contains c)

/-- The triple `analyze_mrp` returns: `(count, error, table)`. -/
structure AnalyzeResult where
  count : Option ℕ
  error : Option AnalysisError
  table : Option (List CriticalItem)
  deriving DecidableEq

/-- The in-memory transformation of `analyze_mrp` after the sheet is read:
normalize headers, check required columns, validate numeric and positive
values, then filter and project.  Success returns
`(len(criticos), None, criticos)`; any validation failure returns
`(None, error, None)`. -/
def analyzeCore (sheet : Sheet) : AnalyzeResult :=
  let missing := missingColumnsOf sheet
  if missing.isEmpty then
    match validateNumericColumns sheet.rows with
    | some e => ⟨none, some e, none⟩
    | none =>
      match validatePositiveValues sheet.rows with
      | some e => ⟨none, some e, none⟩
      | none =>
        let tbl := analyzeRows sheet.rows
        ⟨some tbl.length, none, some tbl⟩
  else ⟨none, some (.missingColumns missing), none⟩

/-- The argument triple of `analyze_mrp`, the key of its `lru_cache`. -/
structure Args where
  inputFile : String
  sheetName : String
  outputFile : String
  deriving DecidableEq

/-- Which externally visible effects one invocation performs: reading the
input workbook, writing the primary output, writing the history artifact. -/
structure Effects where
  readInput : Bool
  wroteOutput : Bool
  wroteHistory : Bool
  deriving DecidableEq

/-- The filesystem as the analyzer sees it: for an input path and sheet
name, the worksheet found there (or `none` when the file is absent). -/
structure World where
  sheets : String → String → Option Sheet

/-- One uncached invocation of `analyze_mrp`'s body: reads the input from
the world; on success it also writes the primary output and the history
copy, on failure it writes nothing. -/
def analyzeUncached (w : World) (a : Args) : AnalyzeResult × Effects :=
  match w.sheets a.inputFile a.sheetName with
  | none => (⟨none, some (.fileNotFound a.inputFile), none⟩, ⟨true, false, false⟩)
  | some sheet =>
    let r := analyzeCore sheet
    (r, ⟨true, r.error.isNone, r.error.isNone⟩)

/-- The memo table of `@lru_cache(maxsize=32)`, keyed by the argument
triple.  Eviction (least-recently-used at 32 entries) is not modelled:
the properties proved here concern a repeat call while its entry is
still cached. -/
abbrev Cache : Type := List (Args × AnalyzeResult)

/-- Calling the `lru_cache`-wrapped `analyze_mrp`: a cache hit returns the
stored triple and performs no effect at all; a miss runs the body against
the current world and stores the result. -/
def callAnalyzeMrp (cache : Cache) (w : World) (a : Args) :
    AnalyzeResult × Cache × Effects :=
  match List.find? (fun p => decide (p.1 = a)) cache with
  | some p => (p.2, cache, ⟨false, false, false⟩)
  | none =>
    let r := analyzeUncached w a
    (r.1, (a, r.1) :: cache, r.2)

/-! ### Concrete example inputs used below -/

/-- A fully populated row with the given five quantity cells. -/
def mkRow (e10 e20 dem seg ped : ℚ) : Row :=
  { cod := "A1", descricaoPromob := "item", estq10 := some e10, estq20 := some e20,
    demandamrp := some dem, estoqseg := some seg, fornecedorPrincipal := "F",
    pedidos := some ped, obs := "", status := none }

/-- A row whose ESTQ20 cell is blank (NaN after coercion). -/
def blankRow : Row := { mkRow 1 0 0 0 0 with estq20 := none }

/-- A critical row whose STATUS cell is "inativo". -/
def inativoRow : Row := { mkRow 5 0 20 10 0 with status := some "inativo" }

/-- Headers that differ from the canonical names only by an internal space
(`ESTQ 10`) and an internal period (`ESTQ.20`). -/
def spacedCols : List String :=
  ["CÓD", "DESCRIÇÃOPROMOB", "ESTQ 10", "ESTQ.20", "DEMANDAMRP",
   "ESTOQSEG", "FORNECEDORPRINCIPAL", "PEDIDOS", "OBS"]

/-- Headers missing exactly ESTQ10 and PEDIDOS. -/
def partialCols : List String :=
  ["CÓD", "DESCRIÇÃOPROMOB", "ESTQ20", "DEMANDAMRP", "ESTOQSEG",
   "FORNECEDORPRINCIPAL", "OBS"]

/-- Headers carrying an extra STATUS column besides the required ones. -/
def statusCols : List String := requiredCols ++ ["STATUS"]

/-! ### Helper lemmas -/

/-- Membership in the selection: exactly the rows passing the strict mask. -/
theorem mem_criticos {rows : List Row} {r : Row} :
    r ∈ criticos rows ↔
      r ∈ rows ∧ r.estoqueDisponivel - val r.demandamrp < val r.estoqseg := by
  simp [criticos, List.mem_filter, Row.isCritical]

/-- Rounding a non-negative rational half-to-even is non-negative. -/
theorem roundHalfEven_nonneg {q : ℚ} (h : 0 ≤ q) : 0 ≤ roundHalfEven q := by
  have hf : (0:ℤ) ≤ ⌊q⌋ := Int.floor_nonneg.mpr h
  unfold roundHalfEven
  split_ifs <;> omega

/-- Half-to-even rounding is rounding to a nearest integer. -/
theorem abs_roundHalfEven_sub_le (q : ℚ) : |(roundHalfEven q : ℚ) - q| ≤ 1/2 := by
  have h1 : (⌊q⌋ : ℚ) ≤ q := Int.floor_le q
  have h2 : q < ⌊q⌋ + 1 := Int.lt_floor_add_one q
  unfold roundHalfEven
  split_ifs with ha hb hc <;>
    (rw [abs_le]; constructor <;> (push_cast; linarith))

/-- A blank cell in any of the five quantity columns fails the
non-numeric-values validation. -/
theorem validateNumericColumns_isSome {rows : List Row} {r : Row} (hr : r ∈ rows)
    (h : r.estq10 = none ∨ r.estq20 = none ∨ r.demandamrp = none ∨
      r.estoqseg = none ∨ r.pedidos = none) :
    (validateNumericColumns rows).isSome := by
  unfold validateNumericColumns
  rw [Option.isSome_map', List.find?_isSome]
  rcases h with h | h | h | h | h
  · exact ⟨("ESTQ10", Row.estq10), List.Mem.head _,
      List.any_eq_true.mpr ⟨r, hr, by simp [cellIsNaN, h]⟩⟩
  · exact ⟨("ESTQ20", Row.estq20), List.Mem.tail _ (List.Mem.head _),
      List.any_eq_true.mpr ⟨r, hr, by simp [cellIsNaN, h]⟩⟩
  · exact ⟨("DEMANDAMRP", Row.demandamrp),
      List.Mem.tail _ (List.Mem.tail _ (List.Mem.head _)),
      List.any_eq_true.mpr ⟨r, hr, by simp [cellIsNaN, h]⟩⟩
  · exact ⟨("ESTOQSEG", Row.estoqseg),
      List.Mem.tail _ (List.Mem.tail _ (List.Mem.tail _ (List.Mem.head _))),
      List.any_eq_true.mpr ⟨r, hr, by simp [cellIsNaN, h]⟩⟩
  · exact ⟨("PEDIDOS", Row.pedidos),
      List.Mem.tail _ (List.Mem.tail _ (List.Mem.tail _ (List.Mem.tail _ (List.Mem.head _)))),
      List.any_eq_true.mpr ⟨r, hr, by simp [cellIsNaN, h]⟩⟩

/-! ### Claim theorems -/

/-- C1: for every validated row with non-negative ESTQ10 and ESTQ20 cells,
the computed available stock (ESTOQUE DISPONÍVEL) equals
stock10 + stock20 / 3 exactly, before any rounding; the divisor is the
fixed constant 3. -/
theorem c1_available_stock (r : Row) (q10 q20 : ℚ)
    (h10 : r.estq10 = some q10) (h20 : r.estq20 = some q20)
    (hn10 : 0 ≤ q10) (hn20 : 0 ≤ q20) :
    r.estoqueDisponivel = q10 + q20 / 3 := by
  simp [Row.estoqueDisponivel, val, h10, h20]

/-- Witness for C1 at the concrete row (10, 30, 15, 5, 2). -/
theorem c1_available_stock_witness :
    (mkRow 10 30 15 5 2).estoqueDisponivel = 10 + 30 / 3 :=
  c1_available_stock (mkRow 10 30 15 5 2) 10 30 rfl rfl (by norm_num) (by norm_num)

/-- C2: a row is selected as critical iff
available − demand < safety with strict inequality; in particular a row
where available − demand equals safety exactly is not selected. -/
theorem c2_strict_filter (rows : List Row) (r : Row) :
    (r ∈ criticos rows ↔
      r ∈ rows ∧ r.estoqueDisponivel - val r.demandamrp < val r.estoqseg) ∧
    (r ∈ rows → r.estoqueDisponivel - val r.demandamrp = val r.estoqseg →
      r ∉ criticos rows) := by
  refine ⟨mem_criticos, fun _ heq hmem => ?_⟩
  have hlt := (mem_criticos.mp hmem).2
  rw [heq] at hlt
  exact lt_irrefl _ hlt

/-- Witness for C2 at the boundary row (10, 30, 15, 5, 2): available = 20
and 20 − 15 = 5 = safety, so the row is not selected. -/
theorem c2_strict_filter_witness :
    mkRow 10 30 15 5 2 ∉ criticos [mkRow 10 30 15 5 2] :=
  (c2_strict_filter [mkRow 10 30 15 5 2] (mkRow 10 30 15 5 2)).2
    (List.mem_singleton.mpr rfl) (by with_unfolding_all rfl)

/-- C3: for every selected critical row, QUANTIDADE A SOLICITAR equals
max 0 (demand − available + safety − pedidos) rounded to a nearest whole
unit (numpy rounds half to even), and it is never negative. -/
theorem c3_quantity (rows : List Row) (r : Row) (hr : r ∈ criticos rows) :
    (toCritical r).quantidadeASolicitar =
      roundHalfEven (max 0
        (val r.demandamrp - r.estoqueDisponivel + val r.estoqseg - val r.pedidos)) ∧
    0 ≤ (toCritical r).quantidadeASolicitar ∧
    |((toCritical r).quantidadeASolicitar : ℚ) -
        max 0 (val r.demandamrp - r.estoqueDisponivel + val r.estoqseg - val r.pedidos)|
      ≤ 1/2 :=
  ⟨rfl, roundHalfEven_nonneg (le_max_left 0 _), abs_roundHalfEven_sub_le _⟩

/-- Witness for C3 at the concrete row (5, 0, 20, 10, 0). -/
theorem c3_quantity_witness :
    (toCritical (mkRow 5 0 20 10 0)).quantidadeASolicitar =
      roundHalfEven (max 0
        (val (mkRow 5 0 20 10 0).demandamrp - (mkRow 5 0 20 10 0).estoqueDisponivel +
          val (mkRow 5 0 20 10 0).estoqseg - val (mkRow 5 0 20 10 0).pedidos)) ∧
    0 ≤ (toCritical (mkRow 5 0 20 10 0)).quantidadeASolicitar ∧
    |((toCritical (mkRow 5 0 20 10 0)).quantidadeASolicitar : ℚ) -
        max 0 (val (mkRow 5 0 20 10 0).demandamrp - (mkRow 5 0 20 10 0).estoqueDisponivel +
          val (mkRow 5 0 20 10 0).estoqseg - val (mkRow 5 0 20 10 0).pedidos)|
      ≤ 1/2 :=
  c3_quantity [mkRow 5 0 20 10 0] (mkRow 5 0 20 10 0)
    (mem_criticos.mpr ⟨List.mem_singleton.mpr rfl,
      of_decide_eq_true (by with_unfolding_all rfl)⟩)

/-- C4 is false of the code: `analyze_mrp` applies no sort after the
filter.  On an input whose two critical rows have quantities 5 and then
25, the output keeps that ascending input order, so it is not ordered by
descending quantity-to-request. -/
theorem c4_counterexample :
    ¬ ((analyzeRows [mkRow 0 0 5 0 0, mkRow 5 0 20 10 0]).map
        CriticalItem.quantidadeASolicitar).Sorted (· ≥ ·) := by
  intro h
  have hq : (analyzeRows [mkRow 0 0 5 0 0, mkRow 5 0 20 10 0]).map
      CriticalItem.quantidadeASolicitar = [5, 25] := by with_unfolding_all rfl
  rw [hq] at h
  have h25 := (List.sorted_cons.mp h).1 25 (List.mem_singleton.mpr rfl)
  omega

/-- C4 amended: the output rows keep their input order — the selection is
an order-preserving filter (the selected rows form a sublist of the input)
and the output is its row-wise projection; no sort by quantity-to-request
is performed, so descending order is not guaranteed. -/
theorem c4_amended_input_order (rows : List Row) :
    (criticos rows).Sublist rows ∧ analyzeRows rows = (criticos rows).map toCritical :=
  ⟨List.filter_sublist rows, rfl⟩

/-- C5 is false of the code: a blank ESTQ20 cell makes the whole invocation
fail with a non-numeric-values validation error naming the column and row —
it is not treated as zero. -/
theorem c5_counterexample :
    blankRow.estq20 = none ∧
    analyzeCore ⟨requiredCols, [blankRow]⟩ =
      ⟨none, some (.nonNumeric "ESTQ20" [0]), none⟩ :=
  ⟨rfl, by with_unfolding_all rfl⟩

/-- C5 amended: a missing/blank value in any of the five quantity columns
of any row causes the invocation to fail with a validation error (no
count, no result table); it is not treated as zero. -/
theorem c5_amended_blank_fails (sheet : Sheet)
    (hcols : missingColumnsOf sheet = [])
    (hblank : ∃ r ∈ sheet.rows,
      r.estq10 = none ∨ r.estq20 = none ∨ r.demandamrp = none ∨
      r.estoqseg = none ∨ r.pedidos = none) :
    (analyzeCore sheet).count = none ∧ (analyzeCore sheet).error.isSome ∧
      (analyzeCore sheet).table = none := by
  obtain ⟨r, hrmem, hcase⟩ := hblank
  have hs := validateNumericColumns_isSome hrmem hcase
  rcases ho : validateNumericColumns sheet.rows with _ | e
  · rw [ho] at hs; exact absurd hs (by simp)
  · unfold analyzeCore
    rw [hcols, ho]
    simp

/-- Witness for C5 amended at the one-row sheet whose ESTQ20 cell is blank. -/
theorem c5_amended_blank_fails_witness :
    (analyzeCore ⟨requiredCols, [blankRow]⟩).count = none ∧
    (analyzeCore ⟨requiredCols, [blankRow]⟩).error.isSome ∧
    (analyzeCore ⟨requiredCols, [blankRow]⟩).table = none :=
  c5_amended_blank_fails ⟨requiredCols, [blankRow]⟩ (by with_unfolding_all rfl)
    ⟨blankRow, List.mem_singleton.mpr rfl, Or.inr (Or.inl rfl)⟩

/-- C6 is false of the code: normalization neither collapses internal
spaces nor strips periods — " estq 10. " normalizes to "ESTQ 10.", not
"ESTQ10" — so a sheet whose headers differ from the canonical names only
by an internal space or period is rejected as missing those columns. -/
theorem c6_counterexample :
    normalizeCol " estq 10. " = "ESTQ 10." ∧ "ESTQ 10." ≠ "ESTQ10" ∧
    (analyzeCore ⟨spacedCols, []⟩).error =
      some (.missingColumns ["ESTQ10", "ESTQ20"]) :=
  ⟨by with_unfolding_all rfl, by decide, by with_unfolding_all rfl⟩

/-- C6 amended: header normalization trims surrounding whitespace and
uppercases (internal spaces and periods are preserved), and the
required-column check is computed on the normalized names: the analysis
result depends on the raw headers only through their normalization. -/
theorem c6_amended_normalization :
    (∀ s₁ s₂ : Sheet, s₁.rows = s₂.rows →
      s₁.columns.map normalizeCol = s₂.columns.map normalizeCol →
      analyzeCore s₁ = analyzeCore s₂) ∧
    normalizeCol "  estq10  " = "ESTQ10" ∧
    normalizeCol " estq 10. " = "ESTQ 10." := by
  refine ⟨fun s₁ s₂ hr hc => ?_, by with_unfolding_all rfl, by with_unfolding_all rfl⟩
  unfold analyzeCore missingColumnsOf analyzeRows
  rw [hr, hc]

/-- Witness for C6 amended: padded headers normalize like the canonical
ones, so the analysis result is the same sheet-for-sheet. -/
theorem c6_amended_normalization_witness :
    analyzeCore ⟨["  CÓD  ", "DESCRIÇÃOPROMOB", "estq10", "ESTQ20", "DEMANDAMRP",
      "ESTOQSEG", "FORNECEDORPRINCIPAL", "PEDIDOS", "OBS"], []⟩ =
    analyzeCore ⟨requiredCols, []⟩ :=
  c6_amended_normalization.1
    ⟨["  CÓD  ", "DESCRIÇÃOPROMOB", "estq10", "ESTQ20", "DEMANDAMRP",
      "ESTOQSEG", "FORNECEDORPRINCIPAL", "PEDIDOS", "OBS"], []⟩
    ⟨requiredCols, []⟩ rfl (by with_unfolding_all rfl)

/-- C7: when required columns are absent after normalization, the reported
error carries the missing-columns list, and that list contains every
required column absent from the normalized headers — not just the first. -/
theorem c7_all_missing_reported (sheet : Sheet)
    (hmiss : missingColumnsOf sheet ≠ []) :
    (analyzeCore sheet).error = some (.missingColumns (missingColumnsOf sheet)) ∧
    ∀ c, c ∈ missingColumnsOf sheet ↔
      (c ∈ requiredCols ∧ c ∉ sheet.columns.map normalizeCol) := by
  constructor
  · have h : (missingColumnsOf sheet).isEmpty = false :=
      List.isEmpty_eq_false.mpr hmiss
    simp [analyzeCore, h]
  · intro c
    simp [missingColumnsOf, List.mem_filter]

/-- Witness for C7 at a sheet missing exactly ESTQ10 and PEDIDOS: the
error names exactly those two. -/
theorem c7_all_missing_reported_witness :
    (analyzeCore ⟨partialCols, []⟩).error =
      some (.missingColumns ["ESTQ10", "PEDIDOS"]) := by
  have hm : missingColumnsOf ⟨partialCols, []⟩ = ["ESTQ10", "PEDIDOS"] := by
    with_unfolding_all rfl
  rw [(c7_all_missing_reported ⟨partialCols, []⟩
    (by rw [hm]; exact List.cons_ne_nil _ _)).1, hm]

/-- C8 is false of the code: no inactive-row exclusion exists in the
analyzer.  On a sheet carrying a STATUS column, a critical row whose
status is "inativo" is selected and appears in the output. -/
theorem c8_counterexample :
    inativoRow.status = some "inativo" ∧
    analyzeCore ⟨statusCols, [inativoRow]⟩ =
      ⟨some 1, none, some [toCritical inativoRow]⟩ :=
  ⟨rfl, by with_unfolding_all rfl⟩

/-- C8 amended: the status column is ignored entirely: changing a row's
status (e.g. to "inativo") changes neither whether it is selected nor its
computed output record, so inactive rows are not excluded. -/
theorem c8_amended_status_ignored (r : Row) (s : Option String) (rows : List Row) :
    Row.isCritical { r with status := s } = r.isCritical ∧
    toCritical { r with status := s } = toCritical r ∧
    criticos (rows.map (fun x => { x with status := s })) =
      (criticos rows).map (fun x => { x with status := s }) ∧
    analyzeRows (rows.map (fun x => { x with status := s })) = analyzeRows rows := by
  have hcrit : (Row.isCritical ∘ fun x : Row => { x with status := s }) = Row.isCritical :=
    funext fun _ => rfl
  have hproj : (toCritical ∘ fun x : Row => { x with status := s }) = toCritical :=
    funext fun _ => rfl
  refine ⟨rfl, rfl, ?_, ?_⟩
  · unfold criticos
    rw [List.filter_map, hcrit]
  · unfold analyzeRows criticos
    rw [List.filter_map, List.map_map, hcrit, hproj]

/-- C9: every invocation returns exactly one of error and result: on
failure the count and table are absent and an error is present; on success
the error is absent and the count is the table's length; and a validated
input with zero critical rows is a success with count 0, no error, and an
empty table. -/
theorem c9_exactly_one (sheet : Sheet) :
    (((analyzeCore sheet).error.isSome ∧ (analyzeCore sheet).count = none ∧
        (analyzeCore sheet).table = none) ∨
      ((analyzeCore sheet).error = none ∧
        (analyzeCore sheet).count = some (analyzeRows sheet.rows).length ∧
        (analyzeCore sheet).table = some (analyzeRows sheet.rows))) ∧
    (missingColumnsOf sheet = [] → validateNumericColumns sheet.rows = none →
      validatePositiveValues sheet.rows = none → criticos sheet.rows = [] →
      analyzeCore sheet = ⟨some 0, none, some []⟩) := by
  constructor
  · by_cases h : (missingColumnsOf sheet).isEmpty
    · rcases hv : validateNumericColumns sheet.rows with _ | e
      · rcases hp : validatePositiveValues sheet.rows with _ | e
        · right; simp [analyzeCore, h, hv, hp]
        · left; simp [analyzeCore, h, hv, hp]
      · left; simp [analyzeCore, h, hv]
    · left
      simp only [Bool.not_eq_true] at h
      simp [analyzeCore, h]
  · intro h1 h2 h3 h4
    simp [analyzeCore, h1, h2, h3, analyzeRows, h4]

/-- Witness for C9 at a sheet whose single row is exactly on the boundary
(not critical): the invocation returns count 0, no error, empty table. -/
theorem c9_exactly_one_witness :
    analyzeCore ⟨requiredCols, [mkRow 10 30 15 5 2]⟩ = ⟨some 0, none, some []⟩ :=
  (c9_exactly_one ⟨requiredCols, [mkRow 10 30 15 5 2]⟩).2
    (by with_unfolding_all rfl) (by with_unfolding_all rfl)
    (by with_unfolding_all rfl) (by with_unfolding_all rfl)

/-- C10: `analyze_mrp` is memoized by `lru_cache` on its argument triple:
a second call with an identical (input file, sheet name, output file)
returns the first call's cached (count, error, table) unchanged, reads no
input file, writes neither the primary output nor the history artifact,
and leaves the cache as it was — even if the input file's contents changed
between the calls (the two calls run against different worlds). -/
theorem c10_memoized (w₁ w₂ : World) (a : Args) :
    (callAnalyzeMrp (callAnalyzeMrp [] w₁ a).2.1 w₂ a).1 =
      (callAnalyzeMrp [] w₁ a).1 ∧
    (callAnalyzeMrp (callAnalyzeMrp [] w₁ a).2.1 w₂ a).2.2 =
      ⟨false, false, false⟩ ∧
    (callAnalyzeMrp (callAnalyzeMrp [] w₁ a).2.1 w₂ a).2.1 =
      (callAnalyzeMrp [] w₁ a).2.1 := by
  simp [callAnalyzeMrp]

end MRP
